import Mathlib

/-
Verification of the agentic dispatch loop in multi-mcp-client.py.

The embedding models JSON values (the universal data format of the
program), the bridge and model endpoints as oracles, and transcribes
the control flow of main(): the per-turn dispatch loop (lines 187-234),
the conversation loop (lines 170-234), and the session lifecycle
wrapper (the try/finally at lines 144-239). External library calls
(requests, json.loads) are modelled as parameters or as faithful
re-implementations (json.dumps, str.strip, str.lower).
-/

/-- A JSON value, as produced by response.json() and manipulated by the
client. Numbers are modelled as integers (no claim involves floats). -/
inductive Json where
  | null : Json
  | bool (b : Bool) : Json
  | num (n : Int) : Json
  | str (s : String) : Json
  | arr (xs : List Json) : Json
  | obj (fields : List (String × Json)) : Json

/-- Errors that Python raises in the modelled fragment: connection
failures, request timeouts, JSON parse failures, KeyError, TypeError
and AttributeError lookups on ill-typed values, and EOF on stdin. -/
inductive Err where
  | conn : Err
  | timeout : Err
  | parse : Err
  | key : Err
  | type : Err
  | eof : Err
deriving DecidableEq

/-- Hex digit for unicode escapes in json.dumps. -/
def hexDigit (n : Nat) : Char :=
  if n < 10 then Char.ofNat (48 + n) else Char.ofNat (87 + n)

/-- Four-digit hex rendering used by the \u escapes of json.dumps. -/
def hex4 (n : Nat) : String :=
  String.mk [hexDigit (n / 4096 % 16), hexDigit (n / 256 % 16),
             hexDigit (n / 16 % 16), hexDigit (n % 16)]

/-- Escaping of one character inside a JSON string literal, matching
json.dumps defaults (ensure_ascii = True). -/
def jsonEscChar (c : Char) : String :=
  if c = '"' then "\\\""
  else if c = '\\' then "\\\\"
  else if c = '\n' then "\\n"
  else if c = '\t' then "\\t"
  else if c = '\r' then "\\r"
  else if c.toNat = 8 then "\\b"
  else if c.toNat = 12 then "\\f"
  else if c.toNat < 32 then "\\u" ++ hex4 c.toNat
  else if c.toNat ≥ 65536 then
    "\\u" ++ hex4 (55296 + (c.toNat - 65536) / 1024) ++
    "\\u" ++ hex4 (56320 + (c.toNat - 65536) % 1024)
  else if c.toNat > 126 then "\\u" ++ hex4 c.toNat
  else String.singleton c

/-- A JSON string literal as emitted by json.dumps. -/
def jsonQuote (s : String) : String :=
  "\"" ++ String.join (s.toList.map jsonEscChar) ++ "\""

mutual
/-- json.dumps with its default separators. -/
def dumps : Json → String
  | .null => "null"
  | .bool true => "true"
  | .bool false => "false"
  | .num n => toString n
  | .str s => jsonQuote s
  | .arr xs => "[" ++ dumpsArr xs ++ "]"
  | .obj fs => "\x7b" ++ dumpsObj fs ++ "\x7d"

/-- Comma-separated serialization of array elements. -/
def dumpsArr : List Json → String
  | [] => ""
  | [x] => dumps x
  | x :: y :: rest => dumps x ++ ", " ++ dumpsArr (y :: rest)

/-- Comma-separated serialization of object members. -/
def dumpsObj : List (String × Json) → String
  | [] => ""
  | [(k, v)] => jsonQuote k ++ ": " ++ dumps v
  | (k, v) :: p :: rest => jsonQuote k ++ ": " ++ dumps v ++ ", " ++ dumpsObj (p :: rest)
end

/-- Escaping of one character inside a Python str repr with the given
quote character. -/
def pyEscChar (q : Char) (c : Char) : String :=
  if c = '\\' then "\\\\"
  else if c = q then "\\" ++ String.singleton q
  else if c = '\n' then "\\n"
  else if c = '\r' then "\\r"
  else if c = '\t' then "\\t"
  else String.singleton c

/-- Python repr of a string: single quotes unless the string contains a
single quote and no double quote. -/
def pyReprStr (s : String) : String :=
  let q : Char := if s.toList.contains '\'' && !(s.toList.contains '"') then '"' else '\''
  String.singleton q ++ String.join (s.toList.map (pyEscChar q)) ++ String.singleton q

mutual
/-- Python repr of a value decoded from JSON (dicts and lists print with
Python syntax: single-quoted strings, True/False/None). -/
def pyRepr : Json → String
  | .null => "None"
  | .bool true => "True"
  | .bool false => "False"
  | .num n => toString n
  | .str s => pyReprStr s
  | .arr xs => "[" ++ pyReprArr xs ++ "]"
  | .obj fs => "\x7b" ++ pyReprObj fs ++ "\x7d"

/-- Comma-separated repr of list elements. -/
def pyReprArr : List Json → String
  | [] => ""
  | [x] => pyRepr x
  | x :: y :: rest => pyRepr x ++ ", " ++ pyReprArr (y :: rest)

/-- Comma-separated repr of dict members. -/
def pyReprObj : List (String × Json) → String
  | [] => ""
  | [(k, v)] => pyReprStr k ++ ": " ++ pyRepr v
  | (k, v) :: p :: rest => pyReprStr k ++ ": " ++ pyRepr v ++ ", " ++ pyReprObj (p :: rest)
end

/-- Python str() of a value decoded from JSON: strings print raw, other
values print as their repr. Used for str(item) and f-string formatting. -/
def pyStrJ : Json → String
  | .str s => s
  | j => pyRepr j

/-- Whether a character is stripped by str.strip() (ASCII whitespace). -/
def isPySpace (c : Char) : Bool :=
  c == ' ' || c == '\t' || c == '\n' || c == '\r' ||
  c == Char.ofNat 11 || c == Char.ofNat 12

/-- str.strip(): remove leading and trailing whitespace. -/
def pyStrip (s : String) : String :=
  String.mk (((s.toList.dropWhile isPySpace).reverse.dropWhile isPySpace).reverse)

/-- str.lower() for the ASCII inputs the client compares against. -/
def pyLower (s : String) : String :=
  String.mk (s.toList.map Char.toLower)

/-- First-match lookup in the fields of a JSON object (Python dict keys
are unique, so first match is the match). -/
def lookupKey : List (String × Json) → String → Option Json
  | [], _ => none
  | (k, v) :: rest, key => if k == key then some v else lookupKey rest key

/-- Python d[k] subscription: KeyError when the key is missing,
TypeError when the value is not a dict. -/
def getItem (j : Json) (k : String) : Except Err Json :=
  match j with
  | .obj fs =>
    match lookupKey fs k with
    | some v => .ok v
    | none => .error .key
  | _ => .error .type

/-- Python d.get(k, default): AttributeError (modelled as Err.type)
when the receiver is not a dict. -/
def dictGetD (j : Json) (k : String) (d : Json) : Except Err Json :=
  match j with
  | .obj fs => .ok ((lookupKey fs k).getD d)
  | _ => .error .type

/-- Python `k in j` for a string key: key membership on dicts, element
membership on lists, substring test on strings, TypeError otherwise. -/
def hasKeyE (j : Json) (k : String) : Except Err Bool :=
  match j with
  | .obj fs => .ok (fs.any (fun p => p.1 == k))
  | .arr xs => .ok (xs.any (fun x => match x with | .str s => s == k | _ => false))
  | .str s => .ok (decide ((s.splitOn k).length ≠ 1))
  | _ => .error .type

/-- Python truthiness of a value decoded from JSON. -/
def truthy : Json → Bool
  | .null => false
  | .bool b => b
  | .num n => n != 0
  | .str s => s != ""
  | .arr xs => !xs.isEmpty
  | .obj fs => !fs.isEmpty

/-- Whether a JSON value is a string (isinstance(x, str)). -/
def Json.isStr : Json → Bool
  | .str _ => true
  | _ => false

/-- Interpreting a JSON value as a list for Python iteration; the
dispatch code iterates tool_calls and content, which are lists. -/
def asArr : Json → Except Err (List Json)
  | .arr xs => .ok xs
  | _ => .error .type

/-- The user-role message appended at line 184 of multi-mcp-client.py. -/
def userMsg (u : String) : Json :=
  .obj [("role", .str "user"), ("content", .str u)]

/-- The tool-role message appended at lines 224-227. -/
def toolMsg (t : String) : Json :=
  .obj [("role", .str "tool"), ("content", .str t)]

/-- The text of one content item (lines 215-218):
item.get('text', str(item)), where a present non-string text value
makes the later join raise TypeError, and a non-dict item has no .get. -/
def itemText (item : Json) : Except Err String :=
  match item with
  | .obj fs =>
    match lookupKey fs "text" with
    | some (.str t) => .ok t
    | some _ => .error .type
    | none => .ok (pyStrJ item)
  | _ => .error .type

/-- Texts of all content items, failing like a Python comprehension on
the first bad item. -/
def itemTexts : List Json → Except Err (List String)
  | [] => .ok []
  | item :: rest =>
    match itemText item with
    | .error e => .error e
    | .ok t =>
      match itemTexts rest with
      | .error e => .error e
      | .ok ts => .ok (t :: ts)

/-- Tool-result normalization (lines 213-220): when the response has a
'result' field, join the text of its content items with newlines;
otherwise serialize the whole response with json.dumps. -/
def normalizeResult (result : Json) : Except Err String :=
  match hasKeyE result "result" with
  | .error e => .error e
  | .ok true =>
    match getItem result "result" with
    | .error e => .error e
    | .ok inner =>
      match dictGetD inner "content" (.arr []) with
      | .error e => .error e
      | .ok content =>
        match content with
        | .arr items =>
          match itemTexts items with
          | .error e => .error e
          | .ok texts => .ok (String.intercalate "\n" texts)
        | _ => .error .type
  | .ok false => .ok (dumps result)

/-- Argument normalization (lines 201-204): parse when the arguments
arrive as a string, pass through otherwise. The json.loads step is the
loads parameter, an external library call. -/
def parseArgs (loads : String → Except Err Json) (a : Json) : Except Err Json :=
  match a with
  | .str s => loads s
  | _ => .ok a

/-- One tool call of the inner loop (lines 196-227): read the function
member, its name and arguments, normalize the arguments, invoke the
bridge (the tool oracle models bridge.call_tool, whose error values are
the timeout and connection exceptions of requests), normalize the
result. Returns the appended tool message, the name and the arguments
sent to the bridge. -/
def tcStep (loads : String → Except Err Json)
    (tool : Json → Json → Except Err Json) (tc : Json) :
    Except Err (Json × Json × Json) :=
  match getItem tc "function" with
  | .error e => .error e
  | .ok func =>
    match getItem func "name" with
    | .error e => .error e
    | .ok nm =>
      match getItem func "arguments" with
      | .error e => .error e
      | .ok a0 =>
        match parseArgs loads a0 with
        | .error e => .error e
        | .ok args =>
          match tool nm args with
          | .error e => .error e
          | .ok result =>
            match normalizeResult result with
            | .error e => .error e
            | .ok text => .ok (toolMsg text, nm, args)

/-- The inner for-loop over tool_calls (lines 196-227): sequential
execution; an exception stops the loop, keeping the tool messages
already appended. Returns (appended tool messages, invocations issued
to the bridge, uncaught exception if any). -/
def execToolCalls (loads : String → Except Err Json)
    (tool : Json → Json → Except Err Json) :
    List Json → (List Json × List (Json × Json) × Option Err)
  | [] => ([], [], none)
  | tc :: rest =>
    match tcStep loads tool tc, execToolCalls loads tool rest with
    | .error e, _ => ([], [], some e)
    | .ok (m, nm, args), (ms, invs, e?) => (m :: ms, (nm, args) :: invs, e?)

/-- Observable result of one user turn: the conversation after the
turn, the final answer printed at line 233 (none when nothing was
printed), the number of model calls issued, the bridge invocations
issued, the unconsumed model responses, and the uncaught exception when
the turn aborted. -/
structure TurnOut where
  messages : List Json
  finalShown : Option String
  chatCalls : Nat
  invocations : List (Json × Json)
  chatQueue : List (Except Err Json)
  err : Option Err

/-- The final-answer report of lines 231-234: print the assistant
content when present and truthy, then break. -/
def finalShownOf (assistant : Json) : Except Err (Option String) :=
  match hasKeyE assistant "content" with
  | .error e => .error e
  | .ok true =>
    match getItem assistant "content" with
    | .error e => .error e
    | .ok c => .ok (if truthy c then some (pyStrJ c) else none)
  | .ok false => .ok none

/-- Ending a turn through the no-tool-calls branch. -/
def finalStep (assistant : Json) (msgs1 : List Json)
    (cq' : List (Except Err Json)) : TurnOut :=
  match finalShownOf assistant with
  | .error e => ⟨msgs1, none, 1, [], cq', some e⟩
  | .ok fs => ⟨msgs1, fs, 1, [], cq', none⟩

/-- The agentic per-turn loop (lines 187-234), with the remaining
iteration budget of `for iteration in range(10)` as fuel. The chat
queue models successive responses of chat_with_qwen; an exhausted queue
stands for an unreachable model endpoint. -/
def dispatchTurn (loads : String → Except Err Json)
    (tool : Json → Json → Except Err Json) :
    Nat → List (Except Err Json) → List Json → TurnOut
  | 0, cq, msgs => ⟨msgs, none, 0, [], cq, none⟩
  | fuel + 1, cq, msgs =>
    match cq with
    | [] => ⟨msgs, none, 1, [], [], some .conn⟩
    | .error e :: cq' => ⟨msgs, none, 1, [], cq', some e⟩
    | .ok response :: cq' =>
      match dictGetD response "message" (.obj []) with
      | .error e => ⟨msgs, none, 1, [], cq', some e⟩
      | .ok assistant =>
        match hasKeyE assistant "tool_calls" with
        | .error e => ⟨msgs ++ [assistant], none, 1, [], cq', some e⟩
        | .ok false => finalStep assistant (msgs ++ [assistant]) cq'
        | .ok true =>
          match getItem assistant "tool_calls" with
          | .error e => ⟨msgs ++ [assistant], none, 1, [], cq', some e⟩
          | .ok tcv =>
            if truthy tcv then
              match tcv with
              | .arr tcs =>
                match execToolCalls loads tool tcs with
                | (newMsgs, invs, some e) =>
                  ⟨msgs ++ [assistant] ++ newMsgs, none, 1, invs, cq', some e⟩
                | (newMsgs, invs, none) =>
                  let sub := dispatchTurn loads tool fuel cq' (msgs ++ [assistant] ++ newMsgs)
                  ⟨sub.messages, sub.finalShown, sub.chatCalls + 1,
                   invs ++ sub.invocations, sub.chatQueue, sub.err⟩
              | _ => ⟨msgs ++ [assistant], none, 1, [], cq', some .type⟩
            else finalStep assistant (msgs ++ [assistant]) cq'

/-- The hardcoded iteration cap of line 187. -/
def iterationCap : Nat := 10

/-- One user turn as run by main: the dispatch loop with the full cap. -/
def runTurn (loads : String → Except Err Json)
    (tool : Json → Json → Except Err Json)
    (cq : List (Except Err Json)) (msgs : List Json) : TurnOut :=
  dispatchTurn loads tool iterationCap cq msgs

/-- Observable result of the interactive conversation loop. -/
structure ConvOut where
  messages : List Json
  chatCalls : Nat
  err : Option Err

/-- The interactive while-loop (lines 170-234): read a line, strip it,
handle the reserved commands, skip blank input, otherwise append the
user message and run one dispatch turn. Input exhaustion models the
EOFError of input(). -/
def convLoop (loads : String → Except Err Json)
    (tool : Json → Json → Except Err Json) :
    List String → List (Except Err Json) → List Json → ConvOut
  | [], _, msgs => ⟨msgs, 0, some .eof⟩
  | line :: rest, cq, msgs =>
    let u := pyStrip line
    let lu := pyLower u
    if lu = "exit" ∨ lu = "quit" ∨ lu = "q" then ⟨msgs, 0, none⟩
    else if lu = "tools" then convLoop loads tool rest cq msgs
    else if u = "" then convLoop loads tool rest cq msgs
    else
      let t := runTurn loads tool cq (msgs ++ [userMsg u])
      match t.err with
      | some e => ⟨t.messages, t.chatCalls, some e⟩
      | none =>
        let s := convLoop loads tool rest t.chatQueue t.messages
        ⟨s.messages, t.chatCalls + s.chatCalls, s.err⟩

/-- Conversion of one backend tool dict (the comprehension body of
format_tools_for_qwen, lines 79-89): the name subscription can raise,
description and inputSchema fall back to defaults. -/
def fmtTool (t : Json) : Except Err Json :=
  match getItem t "name" with
  | .error e => .error e
  | .ok nm =>
    match dictGetD t "description" (.str "") with
    | .error e => .error e
    | .ok desc =>
      match dictGetD t "inputSchema" (.obj []) with
      | .error e => .error e
      | .ok params =>
        .ok (.obj [("type", .str "function"),
                   ("function", .obj [("name", nm),
                                      ("description", desc),
                                      ("parameters", params)])])

/-- format_tools_for_qwen (lines 77-89) on the fetched tool list. -/
def format_tools_for_qwen : List Json → Except Err (List Json)
  | [] => .ok []
  | t :: rest =>
    match fmtTool t with
    | .error e => .error e
    | .ok s =>
      match format_tools_for_qwen rest with
      | .error e => .error e
      | .ok ss => .ok (s :: ss)

/-- A tool descriptor as defined by the data model: a required name,
optional description and input schema. -/
structure ToolDescriptor where
  name : Json
  description : Option Json
  inputSchema : Option Json

/-- The backend dict carrying a descriptor (only the keys the adapter
reads; absent optional members are absent keys). -/
def encodeDescriptor (d : ToolDescriptor) : Json :=
  .obj ([("name", d.name)]
    ++ (match d.description with | some v => [("description", v)] | none => [])
    ++ (match d.inputSchema with | some v => [("inputSchema", v)] | none => []))

/-- Modelled from the spec: the model tool schema that the adapter
produces for one descriptor - name to name, description to description
with empty-string default, input schema to parameters with
empty-object default. -/
def specSchemaOf (d : ToolDescriptor) : Json :=
  .obj [("type", .str "function"),
        ("function", .obj [("name", d.name),
                           ("description", d.description.getD (.str "")),
                           ("parameters", d.inputSchema.getD (.obj []))])]

/-- Modelled from the spec: the adapter as a pure total function on
descriptor lists. -/
def specFormatTools (ds : List ToolDescriptor) : List Json :=
  ds.map specSchemaOf

/-- The startup print loop over fetched tools (lines 148-150):
tool['name'] subscription, description default, then a slice that needs
a sliceable value. -/
def slice50 : Json → Except Err Json
  | .str s => .ok (.str (String.mk (s.toList.take 50)))
  | .arr xs => .ok (.arr (xs.take 50))
  | _ => .error .type

/-- One iteration of the startup tool-listing print. -/
def printCheck (t : Json) : Except Err Unit :=
  match getItem t "name" with
  | .error e => .error e
  | .ok _ =>
    match dictGetD t "description" (.str "No description") with
    | .error e => .error e
    | .ok d =>
      match slice50 d with
      | .error e => .error e
      | .ok _ => .ok ()

/-- The whole startup print loop. -/
def checkTools : List Json → Except Err Unit
  | [] => .ok ()
  | t :: rest =>
    match printCheck t with
    | .error e => .error e
    | .ok _ => checkTools rest

/-- MCPBridge.list_tools response processing (line 55):
data.get('result', {}).get('tools', []). -/
def listToolsOf (data : Json) : Except Err Json :=
  match dictGetD data "result" (.obj []) with
  | .error e => .error e
  | .ok r => dictGetD r "tools" (.arr [])

/-- The body of the try block of main (lines 144-234): fetch and print
the tool list, check Ollama, adapt the schemas, then run the
conversation loop. Returns the uncaught exception of the body (none for
the normal returns) and the final conversation. -/
def mainBody (loads : String → Except Err Json)
    (tool : Json → Json → Except Err Json)
    (listRaw : Except Err Json) (ollamaUp : Bool)
    (inputs : List String) (cq : List (Except Err Json)) :
    Option Err × List Json :=
  match listRaw with
  | .error e => (some e, [])
  | .ok data =>
    match listToolsOf data with
    | .error e => (some e, [])
    | .ok mt =>
      match asArr mt with
      | .error e => (some e, [])
      | .ok xs =>
        match checkTools xs with
        | .error e => (some e, [])
        | .ok _ =>
          if !ollamaUp then (none, [])
          else
            match format_tools_for_qwen xs with
            | .error e => (some e, [])
            | .ok _ =>
              let c := convLoop loads tool inputs cq []
              (c.err, c.messages)

/-- Observable result of main after a session was created: how many
times close_session ran and the exception escaping main, if any. -/
structure MainOut where
  closeCalls : Nat
  err : Option Err
  messages : List Json

/-- The try/finally of main (lines 144-239) once create_session
succeeded: run the body, then unconditionally call close_session once;
an exception raised by close_session replaces the body's exception, as
an exception raised inside a finally block does in Python. -/
def mainAfterSession (loads : String → Except Err Json)
    (tool : Json → Json → Except Err Json)
    (listRaw : Except Err Json) (ollamaUp : Bool)
    (closeRes : Except Err Json)
    (inputs : List String) (cq : List (Except Err Json)) : MainOut :=
  let b := mainBody loads tool listRaw ollamaUp inputs cq
  match closeRes with
  | .error ce => ⟨1, some ce, b.2⟩
  | .ok _ => ⟨1, b.1, b.2⟩

/-- Whether a conversation message has the tool role. -/
def isToolRole (m : Json) : Bool :=
  match m with
  | .obj fs =>
    match lookupKey fs "role" with
    | some (.str r) => r == "tool"
    | _ => false
  | _ => false

/-- Number of tool-role messages in a conversation. -/
def countToolMsgs (msgs : List Json) : Nat :=
  (msgs.filter isToolRole).length

/-- A tool-call request dict as the model emits it. -/
def mkToolCall (nm args : Json) : Json :=
  .obj [("function", .obj [("name", nm), ("arguments", args)])]

/-- A model response whose assistant message is the given dict. -/
def mkResponse (assistant : Json) : Json :=
  .obj [("message", assistant)]

/-- A json.loads model that rejects every payload, for scenarios where
no string-encoded arguments occur or where parsing must fail. -/
def loads0 : String → Except Err Json := fun _ => .error .parse

/-- A bridge oracle answering every call with null. -/
def tool0 : Json → Json → Except Err Json := fun _ _ => .ok .null

/-- A bridge oracle answering every call with a conventional result
payload carrying one text item. -/
def toolOkC : Json → Json → Except Err Json :=
  fun _ _ => .ok (.obj [("result", .obj [("content", .arr [.obj [("text", .str "out")]])])])

/-- A bridge oracle whose every call times out. -/
def toolTO : Json → Json → Except Err Json := fun _ _ => .error .timeout

/-- A json.loads model accepting exactly the payload of the argument
idempotence witness. -/
def loadsW : String → Except Err Json :=
  fun t => if t = "[1, 2]" then .ok (.arr [.num 1, .num 2]) else .error .parse

/-- A concrete well-formed tool-call request. -/
def tcA : Json := mkToolCall (.str "nmap_scan") (.obj [("target", .str "10.0.0.1")])

/-- A tool-call request whose string-encoded arguments do not parse. -/
def tcBad : Json := mkToolCall (.str "x") (.str "oops")

/-- A model response requesting one tool call. -/
def rspCap : Json := mkResponse (.obj [("tool_calls", .arr [tcA])])

/-- A model response requesting two tool calls, the second malformed. -/
def rsp2 : Json := mkResponse (.obj [("tool_calls", .arr [tcA, tcBad])])

/-- A model response with no tool calls and empty content. -/
def rspDone : Json := mkResponse (.obj [("content", .str "")])

/-- The no-tool-calls exit of a turn always accounts for exactly the
one model call that produced the final assistant message. -/
theorem finalStep_chatCalls (a : Json) (m : List Json) (c : List (Except Err Json)) :
    (finalStep a m c).chatCalls = 1 := by
  cases h : finalShownOf a <;> simp [finalStep, h]

/-- The dispatch loop issues at most as many model calls as it has
remaining iteration budget. -/
theorem dispatch_chatCalls_le (loads : String → Except Err Json)
    (tool : Json → Json → Except Err Json) :
    ∀ (fuel : Nat) (cq : List (Except Err Json)) (msgs : List Json),
      (dispatchTurn loads tool fuel cq msgs).chatCalls ≤ fuel := by
  intro fuel
  induction fuel with
  | zero => intro cq msgs; exact Nat.le_refl 0
  | succ n ih =>
    intro cq msgs
    simp only [dispatchTurn]
    repeat' split
    all_goals first
      | (rw [finalStep_chatCalls]; omega)
      | exact Nat.succ_le_succ (Nat.zero_le n)
      | exact Nat.succ_le_succ (ih _ _)

/-- C1: for every conversation in which a session was successfully
created, close_session is invoked exactly once when the conversation
ends, on every exit path - normal exit through an exit command, early
return, or an unrecovered error anywhere inside the dispatch loop. -/
theorem c1_session_closed_once (loads : String → Except Err Json)
    (tool : Json → Json → Except Err Json)
    (listRaw : Except Err Json) (ollamaUp : Bool) (closeRes : Except Err Json)
    (inputs : List String) (cq : List (Except Err Json)) :
    (mainAfterSession loads tool listRaw ollamaUp closeRes inputs cq).closeCalls = 1 := by
  cases closeRes <;> rfl

/-- C2 counterexample: a tool call that times out is not converted into
a tool-role message - the turn aborts with the timeout as an uncaught
exception and no tool message is appended. -/
theorem c2_tool_timeout_aborts_turn :
    (runTurn loads0 toolTO [.ok rspCap] []).err = some .timeout ∧
    countToolMsgs (runTurn loads0 toolTO [.ok rspCap] []).messages = 0 :=
  ⟨rfl, rfl⟩

/-- C2 amended: only a failure that the backend reports as an error
payload in its response is converted into a tool-role message (the
serialization of the payload) with the loop continuing; an exception
raised by the call itself (timeout, connection loss) aborts the
execution with no tool message appended. -/
theorem c2_error_payload_only_conversion (loads : String → Except Err Json)
    (nm args p : Json) (e : Err)
    (h1 : args.isStr = false) (h2 : hasKeyE p "result" = .ok false) :
    execToolCalls loads (fun _ _ => .ok p) [mkToolCall nm args] =
      ([toolMsg (dumps p)], [(nm, args)], none) ∧
    execToolCalls loads (fun _ _ => .error e) [mkToolCall nm args] =
      ([], [], some e) := by
  have hn : normalizeResult p = .ok (dumps p) := by simp [normalizeResult, h2]
  constructor
  · cases args <;>
      simp_all [execToolCalls, tcStep, mkToolCall, getItem, lookupKey, parseArgs,
                toolMsg, Json.isStr, hn]
  · cases args <;>
      simp_all [execToolCalls, tcStep, mkToolCall, getItem, lookupKey, parseArgs,
                Json.isStr]

/-- C2 witness: a backend error payload becomes a tool message and the
execution continues, while a timeout aborts with nothing appended. -/
theorem c2_error_payload_witness :
    execToolCalls loads0 (fun _ _ => .ok (.obj [("error", .str "boom")]))
        [mkToolCall (.str "t") (.obj [])] =
      ([toolMsg (dumps (.obj [("error", .str "boom")]))], [(.str "t", .obj [])], none) ∧
    execToolCalls loads0 (fun _ _ => .error Err.timeout)
        [mkToolCall (.str "t") (.obj [])] =
      ([], [], some Err.timeout) :=
  c2_error_payload_only_conversion loads0 (.str "t") (.obj [])
    (.obj [("error", .str "boom")]) Err.timeout rfl rfl

/-- C3: a user turn performs at most 10 model-call iterations - the
dispatch loop never exceeds the cap of range(10). -/
theorem c3_iteration_cap (loads : String → Except Err Json)
    (tool : Json → Json → Except Err Json)
    (cq : List (Except Err Json)) (msgs : List Json) :
    (runTurn loads tool cq msgs).chatCalls ≤ 10 :=
  dispatch_chatCalls_le loads tool 10 cq msgs

/-- C4 counterexample: a turn that exhausts all 10 iterations with tool
calls ends with no exception, nothing printed as final answer and no
cap-specific report, exactly like a normal Done turn whose final
assistant message has empty content - the cap-exceeded outcome is not
reported distinctly. -/
theorem c4_cap_indistinguishable_from_done :
    (runTurn loads0 toolOkC (List.replicate 10 (.ok rspCap)) []).chatCalls = 10 ∧
    (runTurn loads0 toolOkC (List.replicate 10 (.ok rspCap)) []).err = none ∧
    (runTurn loads0 toolOkC (List.replicate 10 (.ok rspCap)) []).finalShown = none ∧
    (runTurn loads0 tool0 [.ok rspDone] []).chatCalls = 1 ∧
    (runTurn loads0 tool0 [.ok rspDone] []).err = none ∧
    (runTurn loads0 tool0 [.ok rspDone] []).finalShown = none :=
  ⟨rfl, rfl, rfl, rfl, rfl, rfl⟩

/-- C4 amended: when the iteration budget is exhausted the turn ends
silently - no exception, no final answer, no report of any kind, the
conversation and queue left as they are. -/
theorem c4_cap_exhaustion_silent (loads : String → Except Err Json)
    (tool : Json → Json → Except Err Json)
    (cq : List (Except Err Json)) (msgs : List Json) :
    dispatchTurn loads tool 0 cq msgs = ⟨msgs, none, 0, [], cq, none⟩ := rfl

/-- C5 counterexample: an assistant message with two tool-call requests
whose second has malformed string arguments yields only one tool-role
message - the turn aborts instead of appending exactly N messages. -/
theorem c5_failed_call_drops_messages :
    (runTurn loads0 toolOkC [.ok rsp2] []).err = some .parse ∧
    countToolMsgs (runTurn loads0 toolOkC [.ok rsp2] []).messages = 1 :=
  ⟨rfl, rfl⟩

/-- C5 amended: when all N tool-call requests of an assistant message
execute without an uncaught exception, exactly N tool messages are
produced, and the i-th appended message and i-th bridge invocation are
exactly the result of executing the i-th request - sequential, in
request order. -/
theorem c5_sequential_in_order (loads : String → Except Err Json)
    (tool : Json → Json → Except Err Json) (tcs : List Json)
    (h : (execToolCalls loads tool tcs).2.2 = none) :
    (execToolCalls loads tool tcs).1.length = tcs.length ∧
    (execToolCalls loads tool tcs).2.1.length = tcs.length ∧
    ∀ i, i < tcs.length →
      tcStep loads tool (tcs.getD i .null) =
        .ok ((execToolCalls loads tool tcs).1.getD i .null,
             (execToolCalls loads tool tcs).2.1.getD i (.null, .null)) := by
  induction tcs with
  | nil => exact ⟨rfl, rfl, fun i hi => absurd hi (by simp)⟩
  | cons tc rest ih =>
    cases hstep : tcStep loads tool tc with
    | error e => simp [execToolCalls, hstep] at h
    | ok mi =>
      obtain ⟨m, inv⟩ := mi
      have hx : execToolCalls loads tool (tc :: rest) =
          (m :: (execToolCalls loads tool rest).1,
           (inv.1, inv.2) :: (execToolCalls loads tool rest).2.1,
           (execToolCalls loads tool rest).2.2) := by
        simp [execToolCalls, hstep]
      rw [hx] at h
      obtain ⟨ih1, ih2, ih3⟩ := ih h
      rw [hx]
      refine ⟨by simp [ih1], by simp [ih2], ?_⟩
      intro i hi
      cases i with
      | zero => simpa using hstep
      | succ k =>
        simp only [List.getD_cons_succ, List.length_cons] at hi ⊢
        exact ih3 k (by omega)

/-- C5 witness: two well-formed requests produce exactly two tool
messages and two bridge invocations. -/
theorem c5_sequential_witness :
    (execToolCalls loads0 toolOkC [tcA, tcA]).1.length = 2 ∧
    (execToolCalls loads0 toolOkC [tcA, tcA]).2.1.length = 2 :=
  ⟨(c5_sequential_in_order loads0 toolOkC [tcA, tcA] rfl).1,
   (c5_sequential_in_order loads0 toolOkC [tcA, tcA] rfl).2.1⟩

/-- C6: a response whose result field carries content items with texts
"a" and "b" normalizes to "a\nb", and any response without a result
field normalizes to its literal json.dumps serialization. -/
theorem c6_result_normalization :
    normalizeResult (.obj [("result", .obj [("content",
        .arr [.obj [("text", .str "a")], .obj [("text", .str "b")]])])]) = .ok "a\nb" ∧
    ∀ r : Json, hasKeyE r "result" = .ok false → normalizeResult r = .ok (dumps r) := by
  refine ⟨rfl, ?_⟩
  intro r h
  simp [normalizeResult, h]

/-- C6 witness: a concrete response with no result field normalizes to
its serialization. -/
theorem c6_normalization_witness :
    normalizeResult (.obj [("error", .str "boom")]) =
      .ok (dumps (.obj [("error", .str "boom")])) :=
  c6_result_normalization.2 (.obj [("error", .str "boom")]) rfl

/-- C7: argument normalization is idempotent - pre-structured
(non-string) arguments pass through unchanged, and a string-encoded
payload parses to the same structure as the pre-structured form of the
same data. -/
theorem c7_argument_idempotence (loads : String → Except Err Json)
    (j : Json) (s : String)
    (hj : j.isStr = false) (hs : loads s = .ok j) :
    parseArgs loads j = .ok j ∧ parseArgs loads (.str s) = .ok j := by
  constructor
  · cases j <;> simp_all [parseArgs, Json.isStr]
  · simp [parseArgs, hs]

/-- C7 witness: a concrete structured payload and its string encoding
normalize to the same structure. -/
theorem c7_argument_witness :
    parseArgs loadsW (.arr [.num 1, .num 2]) = .ok (.arr [.num 1, .num 2]) ∧
    parseArgs loadsW (.str "[1, 2]") = .ok (.arr [.num 1, .num 2]) :=
  c7_argument_idempotence loadsW (.arr [.num 1, .num 2]) "[1, 2]" rfl rfl

/-- C8: the tool schema adapter is a pure total function on tool
descriptors - it maps name to name, description to description with an
empty-string default, input schema to parameters with an empty-object
default, one output schema per descriptor, with no failure. -/
theorem c8_adapter_pure (ds : List ToolDescriptor) :
    format_tools_for_qwen (ds.map encodeDescriptor) = .ok (specFormatTools ds) ∧
    (specFormatTools ds).length = ds.length := by
  refine ⟨?_, by simp [specFormatTools]⟩
  induction ds with
  | nil => rfl
  | cons d rest ih =>
    have hd : fmtTool (encodeDescriptor d) = .ok (specSchemaOf d) := by
      rcases d with ⟨n, dsc, sch⟩
      cases dsc <;> cases sch <;> rfl
    simp [format_tools_for_qwen, List.map_cons, hd, ih, specFormatTools]

/-- C9 counterexample: when the conversation body ends with a
connection error and close_session then times out, the error escaping
main is the close failure, masking the original error; with a
successful close the original error surfaces. -/
theorem c9_close_failure_masks :
    (mainAfterSession loads0 tool0 (.error .conn) true (.error .timeout) [] []).err
      = some .timeout ∧
    (mainAfterSession loads0 tool0 (.error .conn) true (.ok .null) [] []).err
      = some .conn :=
  ⟨rfl, rfl⟩

/-- C9 amended: a failing close_session is not caught anywhere - its
exception always escapes main, replacing whatever error ended the
conversation. -/
theorem c9_close_failure_replaces (loads : String → Except Err Json)
    (tool : Json → Json → Except Err Json)
    (listRaw : Except Err Json) (ollamaUp : Bool)
    (inputs : List String) (cq : List (Except Err Json)) (ce : Err) :
    (mainAfterSession loads tool listRaw ollamaUp (.error ce) inputs cq).err
      = some ce := rfl

/-- All-satisfying lists have an empty dropWhile. -/
theorem dropWhile_of_all {α : Type} {p : α → Bool} :
    ∀ l : List α, l.all p = true → l.dropWhile p = []
  | [], _ => rfl
  | x :: xs, h => by
    rw [List.all_cons, Bool.and_eq_true] at h
    simp [List.dropWhile, h.1, dropWhile_of_all xs h.2]

/-- C10: a whitespace-only input line is skipped entirely - no message
appended, no model call, the conversation state unchanged, as if the
line had not been typed. -/
theorem c10_blank_input_skipped (loads : String → Except Err Json)
    (tool : Json → Json → Except Err Json) (line : String) (rest : List String)
    (cq : List (Except Err Json)) (msgs : List Json)
    (h : line.toList.all isPySpace = true) :
    convLoop loads tool (line :: rest) cq msgs = convLoop loads tool rest cq msgs := by
  have hstrip : pyStrip line = "" := by
    unfold pyStrip
    rw [dropWhile_of_all _ h]
    rfl
  simp [convLoop, hstrip, pyLower]

/-- C10 witness: a concrete whitespace-only line before an exit command
leaves the conversation run unchanged. -/
theorem c10_blank_input_witness :
    convLoop loads0 tool0 ["  \t ", "exit"] [] [] =
      convLoop loads0 tool0 ["exit"] [] [] :=
  c10_blank_input_skipped loads0 tool0 "  \t " ["exit"] [] [] rfl
